import Mathlib

/-!
Verification of the hoodik outbound-email subsystem: environment-driven SMTP
configuration resolution (config/src/email.rs) and the SMTP sender batch loop
(email/src/senders/smtp.rs), shallowly embedded in Lean.
-/

/-- TLS mode for the SMTP connection (config/src/email.rs, `enum TlsMode`). -/
inductive TlsMode where
  | StartTls
  | ImplicitTls
  | None
deriving DecidableEq

/-- Auto-detect TLS mode based on port (`TlsMode::from_port`). Ports are 16-bit
unsigned in the source; the embedding uses `Nat`, which agrees on every value
below 2 to the 16. -/
def TlsMode.fromPort (port : Nat) : TlsMode :=
  match port with
  | 587 => TlsMode.StartTls
  | 465 => TlsMode.ImplicitTls
  | 25 => TlsMode.None
  | _ => TlsMode.ImplicitTls

/-- Rust `str::to_lowercase`, embedded as per-character lowering of the
string's character data (the two agree on every ASCII configuration value). -/
def lowerString (s : String) : String :=
  String.mk (s.data.map Char.toLower)

/-- Parse TLS mode from string, case-insensitively (`TlsMode::from_str`).
The Rust source matches `s.to_lowercase()` against literal alternatives; the
alternative patterns are rendered as an if-chain over the lowered string. -/
def TlsMode.fromStr (s : String) : Option TlsMode :=
  let l := lowerString s
  if l = "starttls" ∨ l = "start_tls" then some TlsMode.StartTls
  else if l = "implicit" ∨ l = "tls" ∨ l = "ssl" then some TlsMode.ImplicitTls
  else if l = "none" ∨ l = "plain" then some TlsMode.None
  else none

/-- The lowercase name the source prints for a TLS mode inside the invalid
SMTP_TLS_MODE warning (the inner `match fallback` of `SmtpCredentials::new`). -/
def TlsMode.warningName : TlsMode → String
  | TlsMode.StartTls => "starttls"
  | TlsMode.ImplicitTls => "implicit"
  | TlsMode.None => "none"

/-- Modelled from the spec: the configuration variable reader `Vars`
(config/src/vars.rs is not part of the reviewed sources; spec sections 3 and
4.2 describe it as a key-value environment source with an ordered warning log
and an independent error channel). The embedding additionally records the
ordered list of keys read, so that the claim "no further variables are read"
is statable. -/
structure Vars where
  env : String → Option String
  reads : List String
  warnings : List String
  errors : List String

/-- Log that a key was read from the environment. -/
def Vars.read (v : Vars) (key : String) : Vars :=
  { v with reads := v.reads ++ [key] }

/-- Append a non-fatal warning (spec 3: ordered sequence of strings). -/
def Vars.addWarning (v : Vars) (w : String) : Vars :=
  { v with warnings := v.warnings ++ [w] }

/-- Append a validation error (spec 4.2 step 5: aggregated, fail-fast at the
end of resolution). -/
def Vars.addError (v : Vars) (e : String) : Vars :=
  { v with errors := v.errors ++ [e] }

/-- Modelled from the spec: `vars.var::<String>(key)` — a required string
variable. A present value is returned verbatim; a missing one records an
error naming the field and yields the empty placeholder (resolution aborts on
accumulated errors before the placeholder is ever observable). -/
def Vars.varString (v : Vars) (key : String) : String × Vars :=
  match v.env key with
  | some s => (s, v.read key)
  | none => ("", (v.read key).addError key)

/-- Modelled from the spec: `vars.var_default::<String>(key, default)` — an
optional string variable with a default used when the key is absent. -/
def Vars.varDefaultString (v : Vars) (key : String) (dflt : String) : String × Vars :=
  match v.env key with
  | some s => (s, v.read key)
  | none => (dflt, v.read key)

/-- Modelled from the spec: `vars.var_default::<u16>(key, default)` — an
optional 16-bit unsigned variable (spec 6: SMTP_PORT, default 465). Absent
gives the default; a present value must parse as a natural below 2 to the 16,
otherwise an error naming the field is recorded and the default stands in. -/
def Vars.varDefaultU16 (v : Vars) (key : String) (dflt : Nat) : Nat × Vars :=
  match v.env key with
  | none => (dflt, v.read key)
  | some s =>
    match s.toNat? with
    | some n => if n < 65536 then (n, v.read key) else (dflt, (v.read key).addError key)
    | none => (dflt, (v.read key).addError key)

/-- Modelled from the spec: `vars.maybe_var::<String>(key)` — an optional
variable; present yields its (possibly empty) value, absent yields nothing. -/
def Vars.maybeVar (v : Vars) (key : String) : Option String × Vars :=
  (v.env key, v.read key)

/-- The deprecation warning text of `SmtpCredentials::new` (the Rust string
continuation collapses the line break and indentation into a single space). -/
def depWarning : String :=
  "SMTP_DEFAULT_FROM is deprecated and will be removed in a future version. Please use SMTP_DEFAULT_FROM_EMAIL and SMTP_DEFAULT_FROM_NAME instead."

/-- The invalid-SMTP_TLS_MODE warning text of `SmtpCredentials::new`
(`format!("Invalid SMTP_TLS_MODE \x7b\x7d. ...")` with the invalid value, the
fallback mode name and the port interpolated). -/
def invalidTlsWarning (value : String) (fallback : TlsMode) (port : Nat) : String :=
  "Invalid SMTP_TLS_MODE \x27" ++ value ++
    "\x27. Valid values are: starttls, implicit, none. Auto-detected \x27" ++
    fallback.warningName ++ "\x27 from port " ++ toString port

/-- SMTP credentials holder (config/src/email.rs, `struct SmtpCredentials`). -/
structure SmtpCredentials where
  address : String
  username : String
  password : String
  port : Nat
  default_from : String
  tls_mode : TlsMode
  used_deprecated_default_from : Bool
deriving DecidableEq

/-- `SmtpCredentials::new`. The Rust function reads the variables eagerly,
resolves the TLS mode (warning on an unparseable non-empty value), emits the
deprecation warning when SMTP_DEFAULT_FROM_EMAIL is absent and
SMTP_DEFAULT_FROM present, and returns a closure that resolves `default_from`
by the guarded match over the two new variables with fallback to the
deprecated one. The embedding runs the closure immediately, which is
observationally the same because the closure touches no variable state. -/
def SmtpCredentials.new (v0 : Vars) : SmtpCredentials × Vars :=
  let pAddress := v0.varString "SMTP_ADDRESS"
  let v1 := pAddress.2
  let pUsername := v1.varString "SMTP_USERNAME"
  let v2 := pUsername.2
  let pPassword := v2.varString "SMTP_PASSWORD"
  let v3 := pPassword.2
  let pPort := v3.varDefaultU16 "SMTP_PORT" 465
  let port_value := pPort.1
  let v4 := pPort.2
  let pEmail := v4.maybeVar "SMTP_DEFAULT_FROM_EMAIL"
  let default_from_email := pEmail.1
  let v5 := pEmail.2
  let pName := v5.maybeVar "SMTP_DEFAULT_FROM_NAME"
  let default_from_name := pName.1
  let v6 := pName.2
  let pOld := v6.maybeVar "SMTP_DEFAULT_FROM"
  let smtp_default_from := pOld.1
  let v7 := pOld.2
  let pTls := v7.varDefaultString "SMTP_TLS_MODE" ""
  let tls_mode_str_value := pTls.1
  let v8 := pTls.2
  let tlsRes : TlsMode × Vars :=
    if !tls_mode_str_value.isEmpty then
      match TlsMode.fromStr tls_mode_str_value with
      | some mode => (mode, v8)
      | none =>
        let fallback := TlsMode.fromPort port_value
        (fallback, v8.addWarning (invalidTlsWarning tls_mode_str_value fallback port_value))
    else
      (TlsMode.fromPort port_value, v8)
  let tls_mode := tlsRes.1
  let v9 := tlsRes.2
  let used_deprecated_default_from := !default_from_email.isSome && smtp_default_from.isSome
  let v10 := if used_deprecated_default_from then v9.addWarning depWarning else v9
  let oldFallback : String :=
    match smtp_default_from with
    | some old_value => if !old_value.isEmpty then old_value else ""
    | _ => ""
  let default_from : String :=
    match default_from_email, default_from_name with
    | some email, some name =>
      if !email.isEmpty && !name.isEmpty then name ++ " <" ++ email ++ ">"
      else if !email.isEmpty then "Hoodik <" ++ email ++ ">"
      else oldFallback
    | some email, _ =>
      if !email.isEmpty then "Hoodik <" ++ email ++ ">"
      else oldFallback
    | _, _ => oldFallback
  ({ address := pAddress.1
     username := pUsername.1
     password := pPassword.1
     port := port_value
     default_from := default_from
     tls_mode := tls_mode
     used_deprecated_default_from := false }, v10)

/-- Email configuration holder (config/src/email.rs, `enum EmailConfig`). -/
inductive EmailConfig where
  | Smtp (credentials : SmtpCredentials)
  | None
deriving DecidableEq

/-- `EmailConfig::new`: read MAILER_TYPE (default empty); unless it equals
"smtp" return the disabled variant; otherwise resolve the credentials and
abort (Rust: `panic_if_errors`) when any validation error accumulated. The
abort is embedded as `Except.error` carrying the error channel. -/
def EmailConfig.new (v : Vars) : Except (List String) (EmailConfig × Vars) :=
  let pMailer := v.varDefaultString "MAILER_TYPE" ""
  let mailer := pMailer.1
  let v1 := pMailer.2
  if mailer = "smtp" then
    let pCred := SmtpCredentials.new v1
    if pCred.2.errors.isEmpty then Except.ok (EmailConfig.Smtp pCred.1, pCred.2)
    else Except.error pCred.2.errors
  else
    Except.ok (EmailConfig.None, v1)

/-- Error type of the send path (the crate error::Error, external to the
reviewed slice): a transport error converted via `Error::from`, or a template
rendering error surfaced by `Template::message`. -/
inductive SendError where
  | transport (e : String)
  | render (e : String)
deriving DecidableEq

/-- A rendered wire message (lettre Message, external collaborator): the
resolved from-mailbox plus the rendered body, which is all the sender loop
observes. -/
structure WireMessage where
  fromAddr : Option String
  body : String
deriving DecidableEq

/-- Modelled from the spec: the Template envelope (email/src/template.rs is
not part of the reviewed sources; spec 3 and 4.5 describe an envelope with an
optional explicit from-mailbox, an orthogonal skip-send flag, and a rendering
step that can fail when the body is not a valid template). `renderError`
holds the rendering failure, when any. -/
structure Template where
  fromAddr : Option String
  skipSendFlag : Bool
  renderError : Option String
  body : String
deriving DecidableEq

/-- `Template::has_from`: whether an explicit from-mailbox is set. -/
def Template.has_from (t : Template) : Bool :=
  t.fromAddr.isSome

/-- `Template::from_mailbox`: stamp the envelope with a from-mailbox. -/
def Template.from_mailbox (t : Template) (m : String) : Template :=
  { t with fromAddr := some m }

/-- `Template::skip_send`: the dry-run marker. -/
def Template.skip_send (t : Template) : Bool :=
  t.skipSendFlag

/-- `Template::message`: render the envelope into a wire message, failing
with the recorded rendering error when the body is not a valid template. -/
def Template.message (t : Template) : Except SendError WireMessage :=
  match t.renderError with
  | some e => Except.error (SendError.render e)
  | _ => Except.ok { fromAddr := t.fromAddr, body := t.body }

/-- A transport-level SMTP response (lettre Response): the loop only inspects
`is_positive`. -/
structure SmtpResponse where
  is_positive : Bool
deriving DecidableEq

/-- Modelled from the spec: the shared SMTP transport (lettre SmtpTransport,
external collaborator). Transmitting a wire message yields either a response
(positive or negative acknowledgment) or a transport error. -/
structure SmtpTransport where
  transmit : WireMessage → Except String SmtpResponse

/-- The SMTP sender (email/src/senders/smtp.rs, `struct SmtpSender`). -/
structure SmtpSender where
  smtp : SmtpTransport
  default_from : String

/-- The body of the `for` loop of `SmtpSender::send`, with the running success
count made explicit: stamp a missing from-address, count skip-send messages
without transmitting, render, transmit, count positive acknowledgments, log
negative ones without counting, and return a transport error immediately. -/
def SmtpSender.sendLoop (s : SmtpSender) : List Template → Nat → Except SendError Nat
  | [], sent => Except.ok sent
  | email :: rest, sent =>
    let email := if !email.has_from then email.from_mailbox s.default_from else email
    if email.skip_send then
      s.sendLoop rest (sent + 1)
    else
      match email.message with
      | Except.error e => Except.error e
      | Except.ok message =>
        match s.smtp.transmit message with
        | Except.ok response =>
          if response.is_positive then s.sendLoop rest (sent + 1)
          else s.sendLoop rest sent
        | Except.error e => Except.error (SendError.transport e)

/-- `SmtpSender::send`: run the loop over the batch starting from zero. -/
def SmtpSender.send (s : SmtpSender) (emails : List Template) : Except SendError Nat :=
  s.sendLoop emails 0

/-- The per-message stamping step of the loop: a message with no explicit
from-address takes the sender's `default_from`. -/
def SmtpSender.stamped (s : SmtpSender) (t : Template) : Template :=
  if !t.has_from then t.from_mailbox s.default_from else t

/-! Spec-side definitions: these follow the wording of the claims (and their
amendments), to be compared with the source-derived resolution above. -/

/-- An optional string that is both present and non-empty (the guard
`!x.is_empty()` applied to a `maybe_var` result). -/
def optNonEmpty (o : Option String) : Bool :=
  match o with
  | some s => !s.isEmpty
  | _ => false

/-- Following the amended claim C1: both new fields non-empty gives
"name <email>"; only the email non-empty gives "Hoodik <email>"; otherwise a
non-empty deprecated value is used verbatim; in every remaining case the
result is empty. -/
def amendedDefaultFrom (email? name? old? : Option String) : String :=
  if optNonEmpty email? && optNonEmpty name? then
    name?.getD "" ++ " <" ++ email?.getD "" ++ ">"
  else if optNonEmpty email? then
    "Hoodik <" ++ email?.getD "" ++ ">"
  else if optNonEmpty old? then
    old?.getD ""
  else
    ""

/-- Following claim C3: the three-way TLS resolution outcome as a function of
the raw mode string (empty when the variable is absent) and the port. -/
def resolvedTlsMode (tlsStr : String) (port : Nat) : TlsMode :=
  if tlsStr.isEmpty then TlsMode.fromPort port
  else
    match TlsMode.fromStr tlsStr with
    | some m => m
    | _ => TlsMode.fromPort port

/-- Following claim C3: the warnings TLS resolution appends — exactly one,
naming the invalid value and the inferred fallback, when the string is
present but unparseable; none otherwise. -/
def tlsWarnings (tlsStr : String) (port : Nat) : List String :=
  if !tlsStr.isEmpty && (TlsMode.fromStr tlsStr).isNone then
    [invalidTlsWarning tlsStr (TlsMode.fromPort port) port]
  else
    []

/-- Following the amended claim C1: the deprecation warning is appended
exactly when SMTP_DEFAULT_FROM_EMAIL is absent (not merely empty) and
SMTP_DEFAULT_FROM is present. -/
def depWarnings (email? old? : Option String) : List String :=
  if !email?.isSome && old?.isSome then [depWarning] else []

/-- The u16-with-default parse applied to an optional raw value (the value
component of `Vars.varDefaultU16`). -/
def parseU16 (o : Option String) (dflt : Nat) : Nat :=
  match o with
  | none => dflt
  | some s =>
    match s.toNat? with
    | some n => if n < 65536 then n else dflt
    | none => dflt

/-- The port an environment resolves to: SMTP_PORT parsed as u16 with
default 465. -/
def portOf (v : Vars) : Nat :=
  parseU16 (v.env "SMTP_PORT") 465

@[simp] theorem Vars.read_env (v : Vars) (k : String) : (v.read k).env = v.env := rfl

@[simp] theorem Vars.read_warnings (v : Vars) (k : String) : (v.read k).warnings = v.warnings := rfl

@[simp] theorem Vars.addError_env (v : Vars) (e : String) : (v.addError e).env = v.env := rfl

@[simp] theorem Vars.addError_warnings (v : Vars) (e : String) : (v.addError e).warnings = v.warnings := rfl

@[simp] theorem Vars.addWarning_env (v : Vars) (w : String) : (v.addWarning w).env = v.env := rfl

@[simp] theorem Vars.addWarning_warnings (v : Vars) (w : String) :
    (v.addWarning w).warnings = v.warnings ++ [w] := rfl

@[simp] theorem Vars.varString_snd_env (v : Vars) (k : String) :
    ((v.varString k).2).env = v.env := by
  unfold Vars.varString
  cases v.env k <;> rfl

@[simp] theorem Vars.varString_snd_warnings (v : Vars) (k : String) :
    ((v.varString k).2).warnings = v.warnings := by
  unfold Vars.varString
  cases v.env k <;> rfl

@[simp] theorem Vars.varDefaultString_snd_env (v : Vars) (k d : String) :
    ((v.varDefaultString k d).2).env = v.env := by
  unfold Vars.varDefaultString
  cases v.env k <;> rfl

@[simp] theorem Vars.varDefaultString_snd_warnings (v : Vars) (k d : String) :
    ((v.varDefaultString k d).2).warnings = v.warnings := by
  unfold Vars.varDefaultString
  cases v.env k <;> rfl

@[simp] theorem Vars.varDefaultString_fst (v : Vars) (k d : String) :
    (v.varDefaultString k d).1 = (v.env k).getD d := by
  unfold Vars.varDefaultString
  cases v.env k <;> rfl

@[simp] theorem Vars.varDefaultU16_snd_env (v : Vars) (k : String) (d : Nat) :
    ((v.varDefaultU16 k d).2).env = v.env := by
  unfold Vars.varDefaultU16
  repeat' split
  all_goals rfl

@[simp] theorem Vars.varDefaultU16_snd_warnings (v : Vars) (k : String) (d : Nat) :
    ((v.varDefaultU16 k d).2).warnings = v.warnings := by
  unfold Vars.varDefaultU16
  repeat' split
  all_goals rfl

@[simp] theorem Vars.varDefaultU16_fst (v : Vars) (k : String) (d : Nat) :
    (v.varDefaultU16 k d).1 = parseU16 (v.env k) d := by
  unfold Vars.varDefaultU16 parseU16
  repeat' split
  all_goals rfl

@[simp] theorem Vars.maybeVar_fst (v : Vars) (k : String) : (v.maybeVar k).1 = v.env k := rfl

@[simp] theorem Vars.maybeVar_snd_env (v : Vars) (k : String) : ((v.maybeVar k).2).env = v.env := rfl

@[simp] theorem Vars.maybeVar_snd_warnings (v : Vars) (k : String) :
    ((v.maybeVar k).2).warnings = v.warnings := rfl

/-- Characterization of the resolved `default_from`: the source's guarded
match agrees with the amended precedence chain on every environment. -/
theorem smtpNew_default_from (v : Vars) :
    (SmtpCredentials.new v).1.default_from =
      amendedDefaultFrom (v.env "SMTP_DEFAULT_FROM_EMAIL") (v.env "SMTP_DEFAULT_FROM_NAME")
        (v.env "SMTP_DEFAULT_FROM") := by
  unfold SmtpCredentials.new
  simp only [Vars.varString_snd_env, Vars.varDefaultU16_snd_env, Vars.varDefaultString_snd_env,
    Vars.maybeVar_snd_env, Vars.maybeVar_fst]
  cases hE : v.env "SMTP_DEFAULT_FROM_EMAIL" <;>
    cases hN : v.env "SMTP_DEFAULT_FROM_NAME" <;>
      cases hO : v.env "SMTP_DEFAULT_FROM" <;>
        simp [amendedDefaultFrom, optNonEmpty]

/-- Characterization of the resolved TLS mode: the source agrees with the
three-way resolution of claim C3 on every environment. -/
theorem smtpNew_tls_mode (v : Vars) :
    (SmtpCredentials.new v).1.tls_mode =
      resolvedTlsMode ((v.env "SMTP_TLS_MODE").getD "") (portOf v) := by
  unfold SmtpCredentials.new
  simp only [Vars.varString_snd_env, Vars.varDefaultU16_snd_env, Vars.varDefaultString_snd_env,
    Vars.maybeVar_snd_env, Vars.maybeVar_fst, Vars.varDefaultString_fst, Vars.varDefaultU16_fst,
    portOf]
  cases hT : ((v.env "SMTP_TLS_MODE").getD "").isEmpty <;>
    cases hP : TlsMode.fromStr ((v.env "SMTP_TLS_MODE").getD "") <;>
      simp [resolvedTlsMode, hT, hP]

/-- Characterization of the warning log after credential resolution: the
prior warnings, then the TLS warnings (exactly one on an unparseable
non-empty mode string), then the deprecation warnings (exactly one when
SMTP_DEFAULT_FROM_EMAIL is absent and SMTP_DEFAULT_FROM present). -/
theorem smtpNew_warnings (v : Vars) :
    (SmtpCredentials.new v).2.warnings =
      v.warnings ++ tlsWarnings ((v.env "SMTP_TLS_MODE").getD "") (portOf v) ++
        depWarnings (v.env "SMTP_DEFAULT_FROM_EMAIL") (v.env "SMTP_DEFAULT_FROM") := by
  unfold SmtpCredentials.new
  simp only [Vars.varString_snd_env, Vars.varDefaultU16_snd_env, Vars.varDefaultString_snd_env,
    Vars.maybeVar_snd_env, Vars.maybeVar_fst, Vars.varDefaultString_fst, Vars.varDefaultU16_fst,
    portOf]
  cases hT : ((v.env "SMTP_TLS_MODE").getD "").isEmpty <;>
    cases hP : TlsMode.fromStr ((v.env "SMTP_TLS_MODE").getD "") <;>
      cases hE : (v.env "SMTP_DEFAULT_FROM_EMAIL").isSome <;>
        cases hO : (v.env "SMTP_DEFAULT_FROM").isSome <;>
          simp [tlsWarnings, depWarnings, hT, hP, hE, hO]

/-- Splitting the loop over an appended batch: the prefix runs first; on its
success with count m the suffix continues from m; a prefix error is final. -/
theorem SmtpSender.sendLoop_append (s : SmtpSender) (pre rest : List Template) (sent : Nat) :
    s.sendLoop (pre ++ rest) sent =
      (s.sendLoop pre sent).bind fun m => s.sendLoop rest m := by
  induction pre generalizing sent with
  | nil => simp [SmtpSender.sendLoop, Except.bind]
  | cons t pre ih =>
    simp only [List.cons_append, SmtpSender.sendLoop]
    by_cases hskip : (if !t.has_from then t.from_mailbox s.default_from else t).skip_send = true
    · simp only [hskip, if_true]
      simpa using ih (sent + 1)
    · simp only [hskip, if_false, Bool.false_eq_true]
      cases hm : (if !t.has_from then t.from_mailbox s.default_from else t).message with
      | error e => simp [hm, Except.bind]
      | ok w =>
        cases htr : s.smtp.transmit w with
        | ok r =>
          by_cases hp : r.is_positive = true
          · simp [hm, htr, hp, ih]
          · simp [hm, htr, hp, ih]
        | error e => simp [hm, htr, Except.bind]

/-- A batch whose every stamped message is marked skip-send is counted in
full without any transmission: the loop adds the batch length. -/
theorem SmtpSender.sendLoop_allSkip (s : SmtpSender) (emails : List Template) (sent : Nat)
    (h : ∀ t ∈ emails, (s.stamped t).skip_send = true) :
    s.sendLoop emails sent = Except.ok (sent + emails.length) := by
  induction emails generalizing sent with
  | nil => simp [SmtpSender.sendLoop]
  | cons t rest ih =>
    have ht : (s.stamped t).skip_send = true := h t (by simp)
    have hrest : ∀ u ∈ rest, (s.stamped u).skip_send = true := fun u hu => h u (by simp [hu])
    simp only [SmtpSender.stamped] at ht
    simp only [SmtpSender.sendLoop, ht, if_true]
    rw [ih (sent + 1) hrest]
    simp only [List.length_cons]
    congr 1
    omega

@[simp] theorem Vars.varDefaultString_snd (v : Vars) (k d : String) :
    (v.varDefaultString k d).2 = v.read k := by
  unfold Vars.varDefaultString
  cases v.env k <;> rfl

/-! Concrete inputs used by witnesses and the counterexample. -/

/-- An environment with no variable set. -/
def emptyVars : Vars :=
  { env := fun _ => none, reads := [], warnings := [], errors := [] }

/-- An environment with an unparseable SMTP_TLS_MODE and port 587. -/
def bogusTlsVars : Vars :=
  { env := fun k =>
      if k = "SMTP_TLS_MODE" then some "bogus"
      else if k = "SMTP_PORT" then some "587"
      else none
    reads := [], warnings := [], errors := [] }

/-- An environment where SMTP_DEFAULT_FROM_EMAIL is present but empty while
the deprecated SMTP_DEFAULT_FROM holds a non-empty mailbox. -/
def cexVars : Vars :=
  { env := fun k =>
      if k = "SMTP_DEFAULT_FROM_EMAIL" then some ""
      else if k = "SMTP_DEFAULT_FROM" then some "B <b@x.com>"
      else none
    reads := [], warnings := [], errors := [] }

/-! Claim theorems. -/

/-- C7: `TlsMode.fromPort` is total on 16-bit ports and maps 587 to StartTls,
465 to ImplicitTls, 25 to None, and every other port to ImplicitTls. -/
theorem c7_from_port_map :
    TlsMode.fromPort 587 = TlsMode.StartTls ∧
    TlsMode.fromPort 465 = TlsMode.ImplicitTls ∧
    TlsMode.fromPort 25 = TlsMode.None ∧
    ∀ port : Nat, port < 65536 → port ≠ 587 → port ≠ 465 → port ≠ 25 →
      TlsMode.fromPort port = TlsMode.ImplicitTls := by
  refine ⟨rfl, rfl, rfl, fun port hlt h587 h465 h25 => ?_⟩
  unfold TlsMode.fromPort
  split <;> simp_all

/-- Witness for C7 at the non-standard port 8025. -/
theorem c7_from_port_map_witness : TlsMode.fromPort 8025 = TlsMode.ImplicitTls :=
  c7_from_port_map.2.2.2 8025 (by decide) (by decide) (by decide) (by decide)

/-- C8: `TlsMode.fromStr` matches case-insensitively: StartTls exactly on
lowered "starttls" or "start_tls", ImplicitTls exactly on "implicit", "tls"
or "ssl", the None mode exactly on "none" or "plain", and no match
otherwise. -/
theorem c8_from_str_cases (s : String) :
    (TlsMode.fromStr s = some TlsMode.StartTls ↔
      lowerString s = "starttls" ∨ lowerString s = "start_tls") ∧
    (TlsMode.fromStr s = some TlsMode.ImplicitTls ↔
      lowerString s = "implicit" ∨ lowerString s = "tls" ∨ lowerString s = "ssl") ∧
    (TlsMode.fromStr s = some TlsMode.None ↔
      lowerString s = "none" ∨ lowerString s = "plain") ∧
    (TlsMode.fromStr s = none ↔
      ¬(lowerString s = "starttls" ∨ lowerString s = "start_tls" ∨ lowerString s = "implicit" ∨
        lowerString s = "tls" ∨ lowerString s = "ssl" ∨ lowerString s = "none" ∨
        lowerString s = "plain")) := by
  simp only [TlsMode.fromStr]
  generalize lowerString s = l
  split_ifs with h1 h2 h3
  · rcases h1 with h | h <;> subst h <;> decide
  · rcases h2 with h | h | h <;> subst h <;> decide
  · rcases h3 with h | h <;> subst h <;> decide
  · push_neg at h1 h2 h3
    simp [h1.1, h1.2, h2.1, h2.2.1, h2.2.2, h3.1, h3.2]

/-- Witness for C8: the mixed-case alias "SSL" parses to ImplicitTls. -/
theorem c8_from_str_cases_witness : TlsMode.fromStr "SSL" = some TlsMode.ImplicitTls :=
  (c8_from_str_cases "SSL").2.1.mpr (by decide)

/-- C9: every constructed `SmtpCredentials` carries
`used_deprecated_default_from = false`, for every environment — including
those where the deprecated SMTP_DEFAULT_FROM value was actually chosen. -/
theorem c9_used_deprecated_always_false (v : Vars) :
    (SmtpCredentials.new v).1.used_deprecated_default_from = false := rfl

/-- C4: whenever MAILER_TYPE is unset or differs from "smtp", resolution
returns the disabled configuration, reads only the discriminator, and leaves
warnings and errors untouched regardless of every other variable. -/
theorem c4_non_smtp_disables (v : Vars) (h : (v.env "MAILER_TYPE").getD "" ≠ "smtp") :
    EmailConfig.new v = Except.ok (EmailConfig.None, v.read "MAILER_TYPE") := by
  unfold EmailConfig.new
  simp [h]

/-- Witness for C4: the empty environment yields the disabled state. -/
theorem c4_non_smtp_disables_witness :
    EmailConfig.new emptyVars = Except.ok (EmailConfig.None, emptyVars.read "MAILER_TYPE") :=
  c4_non_smtp_disables emptyVars (by decide)

/-- C3: TLS resolution is three-way: a non-empty parseable SMTP_TLS_MODE is
used as parsed with no TLS warning; a non-empty unparseable one falls back to
`from_port(port)` with exactly one warning naming the invalid value, the
valid options and the inferred fallback; an absent one silently falls back to
`from_port(port)`. -/
theorem c3_tls_mode_three_way (v : Vars) :
    (∀ m : TlsMode, ((v.env "SMTP_TLS_MODE").getD "").isEmpty = false →
      TlsMode.fromStr ((v.env "SMTP_TLS_MODE").getD "") = some m →
      (SmtpCredentials.new v).1.tls_mode = m ∧
      (SmtpCredentials.new v).2.warnings =
        v.warnings ++ depWarnings (v.env "SMTP_DEFAULT_FROM_EMAIL") (v.env "SMTP_DEFAULT_FROM")) ∧
    (((v.env "SMTP_TLS_MODE").getD "").isEmpty = false →
      TlsMode.fromStr ((v.env "SMTP_TLS_MODE").getD "") = none →
      (SmtpCredentials.new v).1.tls_mode = TlsMode.fromPort (portOf v) ∧
      (SmtpCredentials.new v).2.warnings =
        v.warnings ++
          [invalidTlsWarning ((v.env "SMTP_TLS_MODE").getD "")
            (TlsMode.fromPort (portOf v)) (portOf v)] ++
          depWarnings (v.env "SMTP_DEFAULT_FROM_EMAIL") (v.env "SMTP_DEFAULT_FROM")) ∧
    (((v.env "SMTP_TLS_MODE").getD "").isEmpty = true →
      (SmtpCredentials.new v).1.tls_mode = TlsMode.fromPort (portOf v) ∧
      (SmtpCredentials.new v).2.warnings =
        v.warnings ++ depWarnings (v.env "SMTP_DEFAULT_FROM_EMAIL") (v.env "SMTP_DEFAULT_FROM")) := by
  refine ⟨fun m h1 h2 => ⟨?_, ?_⟩, fun h1 h2 => ⟨?_, ?_⟩, fun h1 => ⟨?_, ?_⟩⟩
  · rw [smtpNew_tls_mode]
    unfold resolvedTlsMode
    simp [h1, h2]
  · rw [smtpNew_warnings]
    unfold tlsWarnings
    simp [h1, h2]
  · rw [smtpNew_tls_mode]
    unfold resolvedTlsMode
    simp [h1, h2]
  · rw [smtpNew_warnings]
    unfold tlsWarnings
    simp [h1, h2]
  · rw [smtpNew_tls_mode]
    unfold resolvedTlsMode
    simp [h1]
  · rw [smtpNew_warnings]
    unfold tlsWarnings
    simp [h1]

/-- Witness for C3: SMTP_TLS_MODE="bogus" with SMTP_PORT=587 resolves to the
port-inferred StartTls with exactly one invalid-mode warning. -/
theorem c3_tls_mode_three_way_witness :
    (SmtpCredentials.new bogusTlsVars).1.tls_mode = TlsMode.fromPort (portOf bogusTlsVars) ∧
    (SmtpCredentials.new bogusTlsVars).2.warnings =
      bogusTlsVars.warnings ++
        [invalidTlsWarning ((bogusTlsVars.env "SMTP_TLS_MODE").getD "")
          (TlsMode.fromPort (portOf bogusTlsVars)) (portOf bogusTlsVars)] ++
        depWarnings (bogusTlsVars.env "SMTP_DEFAULT_FROM_EMAIL")
          (bogusTlsVars.env "SMTP_DEFAULT_FROM") :=
  (c3_tls_mode_three_way bogusTlsVars).2.1 (by decide) (by decide)

/-- The default_from precedence chain exactly as claim C1 states it, read at
one environment ("non-empty" for the value conditions, as in the claim's own
wording): both new fields non-empty gives "name <email>"; only the email
non-empty gives "Hoodik <email>"; neither set with a non-empty deprecated
value gives that value verbatim with a deprecation warning recorded; every
remaining case gives the empty string. -/
def c1ClaimAt (v : Vars) : Prop :=
  (optNonEmpty (v.env "SMTP_DEFAULT_FROM_EMAIL") = true →
    optNonEmpty (v.env "SMTP_DEFAULT_FROM_NAME") = true →
    (SmtpCredentials.new v).1.default_from =
      (v.env "SMTP_DEFAULT_FROM_NAME").getD "" ++ " <" ++
        (v.env "SMTP_DEFAULT_FROM_EMAIL").getD "" ++ ">") ∧
  (optNonEmpty (v.env "SMTP_DEFAULT_FROM_EMAIL") = true →
    optNonEmpty (v.env "SMTP_DEFAULT_FROM_NAME") = false →
    (SmtpCredentials.new v).1.default_from =
      "Hoodik <" ++ (v.env "SMTP_DEFAULT_FROM_EMAIL").getD "" ++ ">") ∧
  (optNonEmpty (v.env "SMTP_DEFAULT_FROM_EMAIL") = false →
    optNonEmpty (v.env "SMTP_DEFAULT_FROM_NAME") = false →
    optNonEmpty (v.env "SMTP_DEFAULT_FROM") = true →
    (SmtpCredentials.new v).1.default_from = (v.env "SMTP_DEFAULT_FROM").getD "" ∧
    depWarning ∈ (SmtpCredentials.new v).2.warnings) ∧
  (optNonEmpty (v.env "SMTP_DEFAULT_FROM_EMAIL") = false →
    ¬(optNonEmpty (v.env "SMTP_DEFAULT_FROM_NAME") = false ∧
      optNonEmpty (v.env "SMTP_DEFAULT_FROM") = true) →
    (SmtpCredentials.new v).1.default_from = "")

/-- Counterexample to C1: with SMTP_DEFAULT_FROM_EMAIL present but empty and
a non-empty deprecated SMTP_DEFAULT_FROM, the code uses the deprecated value
verbatim yet records no deprecation warning (the warning tests presence of
the new variable, the value fallback tests its non-emptiness), so the chain
claimed by C1 fails at this environment. -/
theorem c1_counterexample : ¬ c1ClaimAt cexVars := by
  intro h
  have h3 := (h.2.2.1 (by decide) (by decide) (by decide)).2
  have hw : (SmtpCredentials.new cexVars).2.warnings = [] := by decide
  rw [hw] at h3
  exact absurd h3 (by decide)

/-- C1 amended: the resolved default_from equals the precedence chain with
"non-empty email" deciding the first two branches and any non-empty
deprecated value used verbatim whenever the email is absent or empty
(regardless of the name); the deprecation warning is recorded exactly when
SMTP_DEFAULT_FROM_EMAIL is absent — not merely empty — and SMTP_DEFAULT_FROM
is present; in every remaining case default_from is empty. -/
theorem c1_amended_default_from (v : Vars) :
    (SmtpCredentials.new v).1.default_from =
      amendedDefaultFrom (v.env "SMTP_DEFAULT_FROM_EMAIL") (v.env "SMTP_DEFAULT_FROM_NAME")
        (v.env "SMTP_DEFAULT_FROM") ∧
    (SmtpCredentials.new v).2.warnings =
      v.warnings ++ tlsWarnings ((v.env "SMTP_TLS_MODE").getD "") (portOf v) ++
        depWarnings (v.env "SMTP_DEFAULT_FROM_EMAIL") (v.env "SMTP_DEFAULT_FROM") :=
  ⟨smtpNew_default_from v, smtpNew_warnings v⟩

/-- C2: a transport error on one message makes the whole call return that
error: whatever the remaining batch holds, the result is the error alone and
never a partial count. -/
theorem c2_transport_error_aborts (s : SmtpSender) (pre post : List Template) (t : Template)
    (m : Nat) (w : WireMessage) (e : String)
    (hpre : s.sendLoop pre 0 = Except.ok m)
    (hskip : (s.stamped t).skip_send = false)
    (hmsg : (s.stamped t).message = Except.ok w)
    (herr : s.smtp.transmit w = Except.error e) :
    s.send (pre ++ t :: post) = Except.error (SendError.transport e) := by
  simp only [SmtpSender.stamped] at hskip hmsg
  unfold SmtpSender.send
  rw [SmtpSender.sendLoop_append s pre (t :: post) 0, hpre]
  simp only [Except.bind, SmtpSender.sendLoop, hskip, hmsg, herr]
  simp

/-- C5: a negative acknowledgment on one message neither increments the
count nor aborts: the loop continues over the remaining batch with the count
unchanged. -/
theorem c5_negative_ack_continues (s : SmtpSender) (pre post : List Template) (t : Template)
    (m : Nat) (w : WireMessage) (r : SmtpResponse)
    (hpre : s.sendLoop pre 0 = Except.ok m)
    (hskip : (s.stamped t).skip_send = false)
    (hmsg : (s.stamped t).message = Except.ok w)
    (hresp : s.smtp.transmit w = Except.ok r)
    (hneg : r.is_positive = false) :
    s.send (pre ++ t :: post) = s.sendLoop post m := by
  simp only [SmtpSender.stamped] at hskip hmsg
  unfold SmtpSender.send
  rw [SmtpSender.sendLoop_append s pre (t :: post) 0, hpre]
  simp only [Except.bind, SmtpSender.sendLoop, hskip, hmsg, hresp, hneg]
  simp

/-- C6: a message without an explicit from-address is processed exactly as
its copy stamped with the sender's default_from; a stamped skip-send message
is counted as sent with no transmission; on a batch whose every stamped
message is skip-send, the call succeeds with the full batch length. -/
theorem c6_stamp_and_skip_count (s : SmtpSender) :
    (∀ t rest sent, t.has_from = false →
      s.sendLoop (t :: rest) sent = s.sendLoop (t.from_mailbox s.default_from :: rest) sent) ∧
    (∀ t rest sent, (s.stamped t).skip_send = true →
      s.sendLoop (t :: rest) sent = s.sendLoop rest (sent + 1)) ∧
    (∀ emails, (∀ t ∈ emails, (s.stamped t).skip_send = true) →
      s.send emails = Except.ok emails.length) := by
  refine ⟨fun t rest sent h => ?_, fun t rest sent h => ?_, fun emails h => ?_⟩
  · have h2 : t.fromAddr.isSome = false := h
    simp [SmtpSender.sendLoop, Template.has_from, Template.from_mailbox, h2]
  · simp only [SmtpSender.stamped] at h
    simp only [SmtpSender.sendLoop, h, if_true]
  · unfold SmtpSender.send
    rw [SmtpSender.sendLoop_allSkip s emails 0 h]
    simp

/-- C10: a rendering failure on one message makes the whole call return that
error: whatever the remaining batch holds, the result is the error alone and
never a partial count, exactly like a transport error. -/
theorem c10_render_error_aborts (s : SmtpSender) (pre post : List Template) (t : Template)
    (m : Nat) (e : SendError)
    (hpre : s.sendLoop pre 0 = Except.ok m)
    (hskip : (s.stamped t).skip_send = false)
    (hmsg : (s.stamped t).message = Except.error e) :
    s.send (pre ++ t :: post) = Except.error e := by
  simp only [SmtpSender.stamped] at hskip hmsg
  unfold SmtpSender.send
  rw [SmtpSender.sendLoop_append s pre (t :: post) 0, hpre]
  simp only [Except.bind, SmtpSender.sendLoop, hskip, hmsg]
  simp

/-- A plain renderable message without an explicit from-address. -/
def tPlain : Template :=
  { fromAddr := none, skipSendFlag := false, renderError := none, body := "hello" }

/-- A skip-send message. -/
def tSkip : Template :=
  { fromAddr := none, skipSendFlag := true, renderError := none, body := "hello" }

/-- A message whose rendering fails. -/
def tBadRender : Template :=
  { fromAddr := none, skipSendFlag := false, renderError := some "missing variable",
    body := "hello" }

/-- A sender whose transport always reports a transport error. -/
def sFailing : SmtpSender :=
  { smtp := { transmit := fun _ => Except.error "connection reset" },
    default_from := "Hoodik <noreply@example.com>" }

/-- A sender whose transport always returns a negative acknowledgment. -/
def sNegative : SmtpSender :=
  { smtp := { transmit := fun _ => Except.ok { is_positive := false } },
    default_from := "Hoodik <noreply@example.com>" }

/-- Witness for C2: a three-message shape where the middle message hits a
transport error; the call returns the error, regardless of the remaining
message. -/
theorem c2_transport_error_aborts_witness :
    sFailing.send ([] ++ tPlain :: [tPlain]) = Except.error (SendError.transport "connection reset") :=
  c2_transport_error_aborts sFailing [] [tPlain] tPlain 0
    { fromAddr := some "Hoodik <noreply@example.com>", body := "hello" } "connection reset"
    rfl rfl rfl rfl

/-- Witness for C5: a negative acknowledgment leaves the loop running over
the remaining batch with the count unchanged. -/
theorem c5_negative_ack_continues_witness :
    sNegative.send ([] ++ tPlain :: [tPlain]) = sNegative.sendLoop [tPlain] 0 :=
  c5_negative_ack_continues sNegative [] [tPlain] tPlain 0
    { fromAddr := some "Hoodik <noreply@example.com>", body := "hello" }
    { is_positive := false } rfl rfl rfl rfl rfl

/-- Witness for C6: a batch of two skip-send messages counts both without
any transport call. -/
theorem c6_stamp_and_skip_count_witness :
    sNegative.send [tSkip, tSkip] = Except.ok 2 :=
  (c6_stamp_and_skip_count sNegative).2.2 [tSkip, tSkip] (by decide)

/-- Witness for C10: a rendering failure on the first message aborts the
call with that error, regardless of the remaining message. -/
theorem c10_render_error_aborts_witness :
    sNegative.send ([] ++ tBadRender :: [tPlain]) = Except.error (SendError.render "missing variable") :=
  c10_render_error_aborts sNegative [] [tPlain] tBadRender 0
    (SendError.render "missing variable") rfl rfl rfl
